import Mathlib

/-!
Verification of `arch/arm/src/common/up_createstack.c` (NuttX, ARM common code).

The development shallowly embeds the two functions of that file,
`up_create_stack` and `up_stack_color`, over a configuration record that
captures the build-time switches (`CONFIG_TLS`, `HAVE_KERNEL_HEAP`,
`CONFIG_STACK_COLORATION`, `CONFIG_STACK_ALIGNMENT`) and the TLS constants.
Machine pointers and `size_t` values are `Nat` with explicit reduction
modulo `2 ^ 32` where the C code performs 32-bit arithmetic; the null
pointer is the address `0`.  Heap allocation is an oracle passed as a
function; the observable behaviour of a call (return code, released flag,
allocator invocation, memory writes, LED event) is collected into a result
record so that theorems can speak about effects as well as state.
-/

set_option autoImplicit false

/-- `2 ^ 32`: the modulus of 32-bit machine arithmetic (`uint32_t`,
`size_t` and `uintptr_t` on ARM). -/
def U32 : Nat := 4294967296

/-- 32-bit addition, as computed by the machine. -/
def u32add (a b : Nat) : Nat := (a + b) % U32

/-- 32-bit subtraction with wraparound, as computed by the machine. -/
def u32sub (a b : Nat) : Nat := (a % U32 + U32 - b % U32) % U32

/-- `x & ~(n-1)` for a power of two `n` and `x < 2^32`: round `x` down to a
multiple of `n`.  This is `STACK_ALIGN_DOWN` from the source (and the
`& ~3` roundings in `up_stack_color`). -/
def alignDown (a n : Nat) : Nat := a - a % n

/-- Build-time configuration of `up_createstack.c`: which `#ifdef` blocks
are compiled in, and the values of the configuration constants. -/
structure Config where
  /-- `CONFIG_TLS` -/
  tls : Bool
  /-- `HAVE_KERNEL_HEAP`, i.e. (`CONFIG_BUILD_PROTECTED` or
  `CONFIG_BUILD_KERNEL`) and `CONFIG_MM_KERNEL_HEAP` -/
  haveKernelHeap : Bool
  /-- `CONFIG_STACK_COLORATION` -/
  coloration : Bool
  /-- `CONFIG_STACK_ALIGNMENT`: 8 under EABI, else 4 -/
  stackAlignment : Nat
  /-- `sizeof(struct tls_info_s)`, the spec's `TLS_HEADER_SIZE` -/
  tlsHeaderSize : Nat
  /-- `TLS_MAXSTACK` -/
  tlsMaxstack : Nat
  /-- `TLS_STACK_ALIGN` -/
  tlsStackAlign : Nat

/-- Modelled from the spec: the thread kinds `TASK`, `PTHREAD`, `KERNEL`
(`TCB_FLAG_TTYPE_*` of `include/nuttx/sched.h`, which is not among the
sources at hand).  Only equality with the `KERNEL` value matters to this
code. -/
def TCB_FLAG_TTYPE_TASK : Nat := 0

/-- Modelled from the spec: the user-pthread thread kind. -/
def TCB_FLAG_TTYPE_PTHREAD : Nat := 1

/-- Modelled from the spec: the kernel-thread kind. -/
def TCB_FLAG_TTYPE_KERNEL : Nat := 2

/-- The three TCB fields this code reads and mutates.  Pointers are plain
addresses; the null pointer is `0`. -/
structure Tcb where
  stack_alloc_ptr : Nat
  adj_stack_size : Nat
  adj_stack_ptr : Nat
deriving DecidableEq

/-- Which heap an allocation is served from. -/
inductive Heap where
  | kernel
  | user
deriving DecidableEq

/-- One allocator invocation: the heap, the alignment argument (`some a`
for the `memalign` variants, `none` for plain `malloc`), and the byte
count. -/
structure AllocCall where
  heap : Heap
  alignment : Option Nat
  size : Nat
deriving DecidableEq

/-- The heap-allocator oracle: given heap, alignment request and size it
returns a base address, `0` meaning allocation failure (NULL). -/
def Alloc : Type := Heap → Option Nat → Nat → Nat

/-- Modelled from the spec: the external release primitive
(`up_release_stack`, in `up_releasestack.c`, not among the sources at
hand) frees the block and detaches the stack from the TCB, so that no
stack is attached afterwards. -/
def up_release_stack (_tcb : Tcb) (_ttype : Nat) : Tcb :=
  { stack_alloc_ptr := 0, adj_stack_size := 0, adj_stack_ptr := 0 }

/-- Modelled from the spec: the coloration sentinel `STACK_COLOR`
(defined in `up_internal.h`, not among the sources at hand). -/
def STACK_COLOR : Nat := 0xdeadbeef

/-- Return code `OK`. -/
def OK : Int := 0

/-- Return code `ERROR`. -/
def ERROR : Int := -1

/-- The size-adjustment prologue of `up_create_stack` (lines 136-150):
under `CONFIG_TLS`, `stack_size += sizeof(struct tls_info_s)` (a `size_t`
addition, hence mod `2^32`) followed by the silent clamp
`if (stack_size >= TLS_MAXSTACK) stack_size = TLS_MAXSTACK`. -/
def effectiveSize (cfg : Config) (stack_size : Nat) : Nat :=
  if cfg.tls then
    if cfg.tlsMaxstack ≤ u32add stack_size cfg.tlsHeaderSize then cfg.tlsMaxstack
    else u32add stack_size cfg.tlsHeaderSize
  else stack_size

/-- Reconciliation with an existing stack (lines 157-162): release the old
stack when one is attached and its recorded size differs. -/
def reconcileTcb (tcb : Tcb) (s ttype : Nat) : Tcb :=
  if tcb.stack_alloc_ptr ≠ 0 ∧ tcb.adj_stack_size ≠ s then up_release_stack tcb ttype
  else tcb

/-- Whether the reconciliation step invokes `up_release_stack`. -/
def didRelease (tcb : Tcb) (s : Nat) : Bool :=
  decide (tcb.stack_alloc_ptr ≠ 0 ∧ tcb.adj_stack_size ≠ s)

/-- The allocator arguments chosen by lines 173-206: kernel heap for
kernel threads when `HAVE_KERNEL_HEAP`, else user heap; the aligned
variant with `TLS_STACK_ALIGN` under `CONFIG_TLS`, else the plain one. -/
def allocArgs (cfg : Config) (ttype s : Nat) : AllocCall :=
  if cfg.tls then
    if cfg.haveKernelHeap = true ∧ ttype = TCB_FLAG_TTYPE_KERNEL then
      { heap := Heap.kernel, alignment := some cfg.tlsStackAlign, size := s }
    else
      { heap := Heap.user, alignment := some cfg.tlsStackAlign, size := s }
  else
    if cfg.haveKernelHeap = true ∧ ttype = TCB_FLAG_TTYPE_KERNEL then
      { heap := Heap.kernel, alignment := none, size := s }
    else
      { heap := Heap.user, alignment := none, size := s }

/-- Perform the selected allocation through the oracle. -/
def callAlloc (cfg : Config) (alloc : Alloc) (ttype s : Nat) : Nat :=
  alloc (allocArgs cfg ttype s).heap (allocArgs cfg ttype s).alignment
    (allocArgs cfg ttype s).size

/-- Lines 164-216: if no stack is attached, allocate one and store the
result (possibly NULL) into `stack_alloc_ptr`. -/
def allocatedTcb (cfg : Config) (alloc : Alloc) (tcb : Tcb) (s ttype : Nat) : Tcb :=
  if tcb.stack_alloc_ptr = 0 then
    { tcb with stack_alloc_ptr := callAlloc cfg alloc ttype s }
  else tcb

/-- The allocator invocation the call performs, if any. -/
def allocCallOf (cfg : Config) (tcb : Tcb) (s ttype : Nat) : Option AllocCall :=
  if tcb.stack_alloc_ptr = 0 then some (allocArgs cfg ttype s) else none

/-- The TCB state after reconciliation and the (possible) allocation. -/
def tcbAfterAlloc (cfg : Config) (alloc : Alloc) (tcb : Tcb) (s ttype : Nat) : Tcb :=
  allocatedTcb cfg alloc (reconcileTcb tcb s ttype) s ttype

/-- Lines 237-244: `top_of_stack = (uint32_t)base + stack_size - 4`, then
`STACK_ALIGN_DOWN`. -/
def topOfStack (cfg : Config) (base s : Nat) : Nat :=
  alignDown (u32sub (u32add base s) 4) cfg.stackAlignment

/-- Line 252: `size_of_stack = top_of_stack - (uint32_t)base + 4`. -/
def sizeOfStack (cfg : Config) (base s : Nat) : Nat :=
  u32add (u32sub (topOfStack cfg base s) base) 4

/-- Lines 254-257: record the adjusted stack values in the TCB. -/
def withGeometry (cfg : Config) (tcb : Tcb) (s : Nat) : Tcb :=
  { tcb with
    adj_stack_ptr := topOfStack cfg tcb.stack_alloc_ptr s,
    adj_stack_size := sizeOfStack cfg tcb.stack_alloc_ptr s }

/-- A byte-addressed memory. -/
def Mem : Type := Nat → Nat

/-- One memory effect of the call. -/
inductive MemOp where
  /-- `memset(base, val, len)` -/
  | setBytes (base len val : Nat)
  /-- a single 32-bit store (little-endian bytes) -/
  | store32 (addr val : Nat)
  /-- the coloration loop: `nwords` stores of `STACK_COLOR` starting at
  `start`, the `uint32_t` pointer advancing by 4 bytes each and wrapping
  modulo `2 ^ 32` like the machine's -/
  | colorFill (start nwords : Nat)
deriving DecidableEq

/-- `memset` over the byte memory. -/
def writeBytes (m : Mem) (base len val : Nat) : Mem :=
  fun a => if base ≤ a ∧ a < base + len then val else m a

/-- A 32-bit little-endian store over the byte memory. -/
def store32mem (m : Mem) (addr val : Nat) : Mem :=
  fun a =>
    if a = addr then val % 256
    else if a = addr + 1 then val / 256 % 256
    else if a = addr + 2 then val / 65536 % 256
    else if a = addr + 3 then val / 16777216 % 256
    else m a

/-- The effect of the coloration loop on memory: `*stkptr++ = STACK_COLOR`
repeated `nwords` times, the pointer wrapping modulo `2 ^ 32` as the
machine's `uint32_t *` does. -/
def colorFillMem : Nat → Nat → Mem → Mem
  | _, 0, m => m
  | start, n + 1, m => colorFillMem (u32add start 4) n (store32mem m start STACK_COLOR)

/-- Apply one memory effect. -/
def applyOp (m : Mem) : MemOp → Mem
  | MemOp.setBytes base len val => writeBytes m base len val
  | MemOp.store32 addr val => store32mem m addr val
  | MemOp.colorFill start n => colorFillMem start n m

/-- Apply the effects of a call in order. -/
def applyOps (m : Mem) : List MemOp → Mem
  | [] => m
  | op :: ops => applyOps (applyOp m op) ops

/-- The word writes performed by `up_stack_color` (lines 305-319): first
word address (`stkptr`, the base rounded up to 4) and word count
(`nwords = (stkend - stackbase) >> 2`, an unsigned 32-bit subtraction). -/
structure ColorJob where
  start : Nat
  nwords : Nat
deriving DecidableEq

/-- `up_stack_color(stackbase, nbytes)`: the addresses it writes, as
computed by lines 309-311 of the source. -/
def up_stack_color (stackbase nbytes : Nat) : ColorJob :=
  { start := alignDown (u32add stackbase 3) 4,
    nwords := u32sub (alignDown (u32add stackbase nbytes) 4) stackbase / 4 }

/-- The coloration loop as a memory effect. -/
def colorOp (stackbase nbytes : Nat) : MemOp :=
  MemOp.colorFill (up_stack_color stackbase nbytes).start
    (up_stack_color stackbase nbytes).nwords

/-- The instrumentation writes of the success path (lines 259-287): under
`CONFIG_TLS`, zero the TLS header then store the TCB back-reference
(the `tl_tcb` field at the start of `struct tls_info_s`; modelled from
the spec, `nuttx/tls.h` not being among the sources at hand), then color
`[base + sizeof(tls_info_s), +adj_stack_size - sizeof)`; without TLS,
color the whole `[base, +adj_stack_size)`. -/
def instrWrites (cfg : Config) (tcbAddr base adjSize : Nat) : List MemOp :=
  if cfg.tls then
    [MemOp.setBytes base cfg.tlsHeaderSize 0, MemOp.store32 base tcbAddr] ++
      (if cfg.coloration then
        [colorOp (u32add base cfg.tlsHeaderSize) (u32sub adjSize cfg.tlsHeaderSize)]
      else [])
  else
    if cfg.coloration then [colorOp base adjSize] else []

/-- Everything observable about one call of `up_create_stack`. -/
structure CreateResult where
  tcb : Tcb
  ret : Int
  released : Bool
  allocCall : Option AllocCall
  writes : List MemOp
  led : Bool

/-- `up_create_stack(tcb, stack_size, ttype)` (lines 134-294), over the
build configuration `cfg`, the allocator oracle `alloc`, and the address
`tcbAddr` at which the TCB object itself lives (stored into the TLS
header's back-reference). -/
def up_create_stack (cfg : Config) (alloc : Alloc) (tcbAddr : Nat) (tcb : Tcb)
    (stack_size ttype : Nat) : CreateResult :=
  if (tcbAfterAlloc cfg alloc tcb (effectiveSize cfg stack_size) ttype).stack_alloc_ptr ≠ 0 then
    { tcb := withGeometry cfg
        (tcbAfterAlloc cfg alloc tcb (effectiveSize cfg stack_size) ttype)
        (effectiveSize cfg stack_size),
      ret := OK,
      released := didRelease tcb (effectiveSize cfg stack_size),
      allocCall := allocCallOf cfg (reconcileTcb tcb (effectiveSize cfg stack_size) ttype)
        (effectiveSize cfg stack_size) ttype,
      writes := instrWrites cfg tcbAddr
        (tcbAfterAlloc cfg alloc tcb (effectiveSize cfg stack_size) ttype).stack_alloc_ptr
        (sizeOfStack cfg
          (tcbAfterAlloc cfg alloc tcb (effectiveSize cfg stack_size) ttype).stack_alloc_ptr
          (effectiveSize cfg stack_size)),
      led := true }
  else
    { tcb := tcbAfterAlloc cfg alloc tcb (effectiveSize cfg stack_size) ttype,
      ret := ERROR,
      released := didRelease tcb (effectiveSize cfg stack_size),
      allocCall := allocCallOf cfg (reconcileTcb tcb (effectiveSize cfg stack_size) ttype)
        (effectiveSize cfg stack_size) ttype,
      writes := [],
      led := false }

/-! ### Branch characterizations of `up_create_stack` -/

theorem createOk_eq (cfg : Config) (alloc : Alloc) (tcbAddr : Nat) (tcb : Tcb)
    (stack_size ttype : Nat)
    (h : (tcbAfterAlloc cfg alloc tcb (effectiveSize cfg stack_size) ttype).stack_alloc_ptr ≠ 0) :
    up_create_stack cfg alloc tcbAddr tcb stack_size ttype =
    { tcb := withGeometry cfg
        (tcbAfterAlloc cfg alloc tcb (effectiveSize cfg stack_size) ttype)
        (effectiveSize cfg stack_size),
      ret := OK,
      released := didRelease tcb (effectiveSize cfg stack_size),
      allocCall := allocCallOf cfg (reconcileTcb tcb (effectiveSize cfg stack_size) ttype)
        (effectiveSize cfg stack_size) ttype,
      writes := instrWrites cfg tcbAddr
        (tcbAfterAlloc cfg alloc tcb (effectiveSize cfg stack_size) ttype).stack_alloc_ptr
        (sizeOfStack cfg
          (tcbAfterAlloc cfg alloc tcb (effectiveSize cfg stack_size) ttype).stack_alloc_ptr
          (effectiveSize cfg stack_size)),
      led := true } := by
  unfold up_create_stack
  rw [if_pos h]

theorem createErr_eq (cfg : Config) (alloc : Alloc) (tcbAddr : Nat) (tcb : Tcb)
    (stack_size ttype : Nat)
    (h : (tcbAfterAlloc cfg alloc tcb (effectiveSize cfg stack_size) ttype).stack_alloc_ptr = 0) :
    up_create_stack cfg alloc tcbAddr tcb stack_size ttype =
    { tcb := tcbAfterAlloc cfg alloc tcb (effectiveSize cfg stack_size) ttype,
      ret := ERROR,
      released := didRelease tcb (effectiveSize cfg stack_size),
      allocCall := allocCallOf cfg (reconcileTcb tcb (effectiveSize cfg stack_size) ttype)
        (effectiveSize cfg stack_size) ttype,
      writes := [],
      led := false } := by
  unfold up_create_stack
  rw [if_neg (by simpa using h)]

theorem withGeometry_ptr (cfg : Config) (tcb : Tcb) (s : Nat) :
    (withGeometry cfg tcb s).stack_alloc_ptr = tcb.stack_alloc_ptr := rfl

theorem withGeometry_adj_ptr (cfg : Config) (tcb : Tcb) (s : Nat) :
    (withGeometry cfg tcb s).adj_stack_ptr = topOfStack cfg tcb.stack_alloc_ptr s := rfl

theorem withGeometry_adj_size (cfg : Config) (tcb : Tcb) (s : Nat) :
    (withGeometry cfg tcb s).adj_stack_size = sizeOfStack cfg tcb.stack_alloc_ptr s := rfl

/-! ### 32-bit arithmetic lemmas -/

theorem u32add_exact (a b : Nat) (h : a + b < U32) : u32add a b = a + b := by
  unfold u32add
  exact Nat.mod_eq_of_lt h

theorem u32sub_exact (a b : Nat) (hba : b ≤ a) (ha : a < U32) : u32sub a b = a - b := by
  unfold u32sub U32 at *
  omega

/-- `(uint32_t)base + s - 4` computes the exact value `base + s - 4`
whenever `4 ≤ s` and the block `[base, base + s)` fits in the 32-bit
address space. -/
theorem u32_top_eq (base s : Nat) (h4 : 4 ≤ s) (hov : base + s ≤ U32) :
    u32sub (u32add base s) 4 = base + s - 4 := by
  unfold u32add u32sub U32 at *
  omega

theorem alignDown_le (a n : Nat) : alignDown a n ≤ a := Nat.sub_le a (a % n)

theorem alignDown_dvd (a n : Nat) : n ∣ alignDown a n :=
  ⟨a / n, by have h := Nat.div_add_mod a n; unfold alignDown; omega⟩

theorem alignDown_ge_of_mod_le (a n k : Nat) (h : a % n ≤ k) : a - k ≤ alignDown a n := by
  unfold alignDown
  omega

/-! ### Concrete fixtures used by witnesses and counterexamples -/

/-- EABI build, no TLS, no coloration, flat heap. -/
def cfgEabi : Config :=
  { tls := false, haveKernelHeap := false, coloration := false,
    stackAlignment := 8, tlsHeaderSize := 0, tlsMaxstack := 0, tlsStackAlign := 0 }

/-- OABI build (4-byte stack alignment), no TLS. -/
def cfgOabi : Config :=
  { tls := false, haveKernelHeap := false, coloration := false,
    stackAlignment := 4, tlsHeaderSize := 0, tlsMaxstack := 0, tlsStackAlign := 0 }

/-- EABI build with TLS enabled (header 16 bytes, max stack 4096). -/
def cfgTls : Config :=
  { tls := true, haveKernelHeap := false, coloration := false,
    stackAlignment := 8, tlsHeaderSize := 16, tlsMaxstack := 4096, tlsStackAlign := 2048 }

/-- Protected build with kernel heap, TLS and coloration enabled. -/
def cfgFull : Config :=
  { tls := true, haveKernelHeap := true, coloration := true,
    stackAlignment := 8, tlsHeaderSize := 16, tlsMaxstack := 65536, tlsStackAlign := 2048 }

/-- An allocator oracle that always returns the same base. -/
def allocConst (b : Nat) : Alloc := fun _ _ _ => b

/-- An allocator oracle whose heaps are exhausted. -/
def allocNull : Alloc := fun _ _ _ => 0

/-- A pristine TCB. -/
def tcbFresh : Tcb := { stack_alloc_ptr := 0, adj_stack_size := 0, adj_stack_ptr := 0 }

/-! ### Claim theorems -/

/-- Claim C1: on every successful call with effective size `S` and
allocation base `B` (with the block inside the 32-bit address space,
`4 ≤ S`, and the rounding not crossing below the base — true whenever the
base is `STACK_ALIGNMENT`-aligned or `S ≥ STACK_ALIGNMENT + 3`), the
recorded initial stack pointer is `B + S - 4` rounded down to
`STACK_ALIGNMENT`, the recorded adjusted size is that pointer minus `B`
plus 4, and the pointer is a multiple of `STACK_ALIGNMENT`. -/
theorem stack_geometry_on_success (cfg : Config) (alloc : Alloc) (tcbAddr : Nat)
    (tcb : Tcb) (stack_size ttype B : Nat)
    (hret : (up_create_stack cfg alloc tcbAddr tcb stack_size ttype).ret = OK)
    (hB : (up_create_stack cfg alloc tcbAddr tcb stack_size ttype).tcb.stack_alloc_ptr = B)
    (h4 : 4 ≤ effectiveSize cfg stack_size)
    (hov : B + effectiveSize cfg stack_size ≤ U32)
    (hin : (B + effectiveSize cfg stack_size - 4) % cfg.stackAlignment
        ≤ effectiveSize cfg stack_size - 4) :
    (up_create_stack cfg alloc tcbAddr tcb stack_size ttype).tcb.adj_stack_ptr
        = alignDown (B + effectiveSize cfg stack_size - 4) cfg.stackAlignment ∧
    (up_create_stack cfg alloc tcbAddr tcb stack_size ttype).tcb.adj_stack_size
        = (up_create_stack cfg alloc tcbAddr tcb stack_size ttype).tcb.adj_stack_ptr - B + 4 ∧
    cfg.stackAlignment ∣
      (up_create_stack cfg alloc tcbAddr tcb stack_size ttype).tcb.adj_stack_ptr := by
  by_cases h :
      (tcbAfterAlloc cfg alloc tcb (effectiveSize cfg stack_size) ttype).stack_alloc_ptr = 0
  · rw [createErr_eq cfg alloc tcbAddr tcb stack_size ttype h] at hret
    exact absurd (show ERROR = OK from hret) (by decide)
  · rw [createOk_eq cfg alloc tcbAddr tcb stack_size ttype h] at hB ⊢
    dsimp only at hB ⊢
    rw [withGeometry_ptr] at hB
    rw [withGeometry_adj_ptr, withGeometry_adj_size, hB]
    rw [hB] at h
    have htop : topOfStack cfg B (effectiveSize cfg stack_size)
        = alignDown (B + effectiveSize cfg stack_size - 4) cfg.stackAlignment := by
      unfold topOfStack
      rw [u32_top_eq B (effectiveSize cfg stack_size) h4 hov]
    have htople : alignDown (B + effectiveSize cfg stack_size - 4) cfg.stackAlignment
        ≤ B + effectiveSize cfg stack_size - 4 := alignDown_le _ _
    have htopge : B ≤ alignDown (B + effectiveSize cfg stack_size - 4) cfg.stackAlignment := by
      have hd := alignDown_ge_of_mod_le (B + effectiveSize cfg stack_size - 4)
        cfg.stackAlignment (effectiveSize cfg stack_size - 4) hin
      omega
    have hU : (0 : Nat) < U32 := by decide
    have hsize : sizeOfStack cfg B (effectiveSize cfg stack_size)
        = topOfStack cfg B (effectiveSize cfg stack_size) - B + 4 := by
      unfold sizeOfStack
      rw [htop]
      rw [u32sub_exact _ B htopge (by omega)]
      exact u32add_exact _ 4 (by omega)
    refine ⟨htop, ?_, htop ▸ alignDown_dvd _ _⟩
    rw [hsize, htop]

/-- Witness for C1: the spec's concrete scenario 1 (EABI, base `0x1000`,
requested 1024): pointer `0x13F8 = 5112`, adjusted size 1020. -/
theorem stack_geometry_on_success_witness :
    (up_create_stack cfgEabi (allocConst 4096) 0 tcbFresh 1024 0).tcb.adj_stack_ptr
        = alignDown (4096 + 1024 - 4) 8 ∧
    (up_create_stack cfgEabi (allocConst 4096) 0 tcbFresh 1024 0).tcb.adj_stack_size
        = (up_create_stack cfgEabi (allocConst 4096) 0 tcbFresh 1024 0).tcb.adj_stack_ptr
          - 4096 + 4 ∧
    (8 : Nat) ∣ (up_create_stack cfgEabi (allocConst 4096) 0 tcbFresh 1024 0).tcb.adj_stack_ptr :=
  stack_geometry_on_success cfgEabi (allocConst 4096) 0 tcbFresh 1024 0 4096
    (by decide) (by decide) (by decide) (by decide) (by decide)

/-- Claim C10: `up_create_stack` returns `OK` exactly when a stack is
attached to the TCB at return (`stack_alloc_ptr` non-null), and returns
`ERROR` exactly when no stack is attached at return. -/
theorem ok_iff_stack_attached (cfg : Config) (alloc : Alloc) (tcbAddr : Nat)
    (tcb : Tcb) (stack_size ttype : Nat) :
    ((up_create_stack cfg alloc tcbAddr tcb stack_size ttype).ret = OK ↔
      (up_create_stack cfg alloc tcbAddr tcb stack_size ttype).tcb.stack_alloc_ptr ≠ 0) ∧
    ((up_create_stack cfg alloc tcbAddr tcb stack_size ttype).ret = ERROR ↔
      (up_create_stack cfg alloc tcbAddr tcb stack_size ttype).tcb.stack_alloc_ptr = 0) := by
  by_cases h :
      (tcbAfterAlloc cfg alloc tcb (effectiveSize cfg stack_size) ttype).stack_alloc_ptr = 0
  · rw [createErr_eq cfg alloc tcbAddr tcb stack_size ttype h]
    refine ⟨⟨fun hO => ?_, fun hp => ?_⟩, ⟨fun _ => h, fun _ => rfl⟩⟩
    · exact absurd (show ERROR = OK from hO) (by decide)
    · exact absurd h hp
  · rw [createOk_eq cfg alloc tcbAddr tcb stack_size ttype h]
    refine ⟨⟨fun _ => h, fun _ => rfl⟩, ⟨fun hE => ?_, fun hp => ?_⟩⟩
    · exact absurd (show OK = ERROR from hE) (by decide)
    · exact absurd (show (tcbAfterAlloc cfg alloc tcb (effectiveSize cfg stack_size)
        ttype).stack_alloc_ptr = 0 from hp) h

/-! ### Shared lemmas about the keep-existing-stack and failure paths -/

theorem tcb_set_ptr_self (t : Tcb) (h : t.stack_alloc_ptr = 0) :
    ({ t with stack_alloc_ptr := 0 } : Tcb) = t := by
  rcases t with ⟨p, q, w⟩
  change p = 0 at h
  subst h
  rfl

theorem create_ret_ok_ptr (cfg : Config) (alloc : Alloc) (tcbAddr : Nat) (tcb : Tcb)
    (stack_size ttype : Nat)
    (hok : (up_create_stack cfg alloc tcbAddr tcb stack_size ttype).ret = OK) :
    (up_create_stack cfg alloc tcbAddr tcb stack_size ttype).tcb.stack_alloc_ptr ≠ 0 := by
  by_cases h :
      (tcbAfterAlloc cfg alloc tcb (effectiveSize cfg stack_size) ttype).stack_alloc_ptr = 0
  · rw [createErr_eq cfg alloc tcbAddr tcb stack_size ttype h] at hok
    exact absurd (show ERROR = OK from hok) (by decide)
  · rw [createOk_eq cfg alloc tcbAddr tcb stack_size ttype h]
    exact h

/-- When a stack of matching recorded size is already attached, the call
keeps the block: no release, no allocation, geometry recomputed from the
existing base, instrumentation rerun, LED signalled, `OK` returned. -/
theorem keepBlock (cfg : Config) (alloc : Alloc) (tcbAddr : Nat) (tcb : Tcb)
    (stack_size ttype : Nat)
    (hp : tcb.stack_alloc_ptr ≠ 0)
    (hsz : tcb.adj_stack_size = effectiveSize cfg stack_size) :
    up_create_stack cfg alloc tcbAddr tcb stack_size ttype =
    { tcb := withGeometry cfg tcb (effectiveSize cfg stack_size),
      ret := OK, released := false, allocCall := none,
      writes := instrWrites cfg tcbAddr tcb.stack_alloc_ptr
        (sizeOfStack cfg tcb.stack_alloc_ptr (effectiveSize cfg stack_size)),
      led := true } := by
  have hrec : reconcileTcb tcb (effectiveSize cfg stack_size) ttype = tcb := by
    unfold reconcileTcb
    rw [if_neg (fun hc => hc.2 hsz)]
  have hafter : tcbAfterAlloc cfg alloc tcb (effectiveSize cfg stack_size) ttype = tcb := by
    unfold tcbAfterAlloc allocatedTcb
    rw [hrec, if_neg hp]
  have hdr : didRelease tcb (effectiveSize cfg stack_size) = false :=
    decide_eq_false (fun hc => hc.2 hsz)
  have hac : allocCallOf cfg tcb (effectiveSize cfg stack_size) ttype = none := by
    unfold allocCallOf
    rw [if_neg hp]
  rw [createOk_eq cfg alloc tcbAddr tcb stack_size ttype (by rw [hafter]; exact hp)]
  rw [hafter, hrec, hdr, hac]

/-- A TCB already holding a 512-byte stack at base 4096. -/
def tcbOld : Tcb := { stack_alloc_ptr := 4096, adj_stack_size := 512, adj_stack_ptr := 4604 }

/-- Counterexample to C2: pre-call TCB `tcbOld` holds a 512-byte stack,
the effective size is 1024, and the allocator returns null: the release
primitive is invoked, the TCB is mutated, and `ERROR` is returned — the
claim's "no release, TCB bit-identical" fails for this pre-call state. -/
theorem alloc_failure_after_release_mutates_tcb :
    (up_create_stack cfgEabi allocNull 0 tcbOld 1024 0).ret = ERROR ∧
    (up_create_stack cfgEabi allocNull 0 tcbOld 1024 0).released = true ∧
    (up_create_stack cfgEabi allocNull 0 tcbOld 1024 0).tcb ≠ tcbOld := by decide

/-- Claim C2 (amended): when the pre-call TCB holds no stack and the heap
allocator returns null, the call returns `ERROR`, the TCB is bit-identical
to its pre-call value, and `up_release_stack` is not invoked. -/
theorem alloc_failure_pristine_tcb_untouched (cfg : Config) (alloc : Alloc) (tcbAddr : Nat)
    (tcb : Tcb) (stack_size ttype : Nat)
    (hpre : tcb.stack_alloc_ptr = 0)
    (hnull : callAlloc cfg alloc ttype (effectiveSize cfg stack_size) = 0) :
    (up_create_stack cfg alloc tcbAddr tcb stack_size ttype).ret = ERROR ∧
    (up_create_stack cfg alloc tcbAddr tcb stack_size ttype).tcb = tcb ∧
    (up_create_stack cfg alloc tcbAddr tcb stack_size ttype).released = false := by
  have hrec : reconcileTcb tcb (effectiveSize cfg stack_size) ttype = tcb := by
    unfold reconcileTcb
    rw [if_neg (fun hc => hc.1 hpre)]
  have hafter : tcbAfterAlloc cfg alloc tcb (effectiveSize cfg stack_size) ttype = tcb := by
    unfold tcbAfterAlloc allocatedTcb
    rw [hrec, if_pos hpre, hnull]
    exact tcb_set_ptr_self tcb hpre
  rw [createErr_eq cfg alloc tcbAddr tcb stack_size ttype (by rw [hafter]; exact hpre)]
  refine ⟨rfl, hafter, ?_⟩
  exact decide_eq_false (fun hc => hc.1 hpre)

/-- Witness for the amended C2 at a concrete input. -/
theorem alloc_failure_pristine_tcb_untouched_witness :
    (up_create_stack cfgEabi allocNull 0 tcbFresh 1024 0).ret = ERROR ∧
    (up_create_stack cfgEabi allocNull 0 tcbFresh 1024 0).tcb = tcbFresh ∧
    (up_create_stack cfgEabi allocNull 0 tcbFresh 1024 0).released = false :=
  alloc_failure_pristine_tcb_untouched cfgEabi allocNull 0 tcbFresh 1024 0 rfl rfl

/-- Counterexample to C3: under EABI the first successful call records
`adj_stack_size = 1020` for effective size 1024; the second call with the
same arguments sees the mismatch, releases the old stack and reallocates
— it is not a no-op. -/
theorem recreate_same_size_releases_when_size_adjusted :
    (up_create_stack cfgEabi (allocConst 4096) 0 tcbFresh 1024 0).ret = OK ∧
    (up_create_stack cfgEabi (allocConst 4096) 0
      (up_create_stack cfgEabi (allocConst 4096) 0 tcbFresh 1024 0).tcb 1024 0).released
        = true ∧
    (up_create_stack cfgEabi (allocConst 4096) 0
      (up_create_stack cfgEabi (allocConst 4096) 0 tcbFresh 1024 0).tcb 1024 0).allocCall
        ≠ none := by decide

/-- Claim C3 (amended): a second `up_create_stack` with the same arguments
performs no release and no new allocation and leaves `stack_alloc_ptr`
unchanged, provided the first call's recorded `adj_stack_size` equals the
effective size (which fails when alignment trimmed the size, e.g. under
EABI with an 8-aligned base and 8-divisible size). -/
theorem recreate_noop_when_adj_size_matches (cfg : Config) (alloc : Alloc) (tcbAddr : Nat)
    (tcb : Tcb) (stack_size ttype : Nat)
    (hok : (up_create_stack cfg alloc tcbAddr tcb stack_size ttype).ret = OK)
    (hsz : (up_create_stack cfg alloc tcbAddr tcb stack_size ttype).tcb.adj_stack_size
        = effectiveSize cfg stack_size) :
    (up_create_stack cfg alloc tcbAddr
      (up_create_stack cfg alloc tcbAddr tcb stack_size ttype).tcb stack_size ttype).released
        = false ∧
    (up_create_stack cfg alloc tcbAddr
      (up_create_stack cfg alloc tcbAddr tcb stack_size ttype).tcb stack_size ttype).allocCall
        = none ∧
    (up_create_stack cfg alloc tcbAddr
      (up_create_stack cfg alloc tcbAddr tcb stack_size ttype).tcb stack_size ttype).tcb.stack_alloc_ptr
        = (up_create_stack cfg alloc tcbAddr tcb stack_size ttype).tcb.stack_alloc_ptr ∧
    (up_create_stack cfg alloc tcbAddr
      (up_create_stack cfg alloc tcbAddr tcb stack_size ttype).tcb stack_size ttype).ret = OK := by
  have hp := create_ret_ok_ptr cfg alloc tcbAddr tcb stack_size ttype hok
  rw [keepBlock cfg alloc tcbAddr
    (up_create_stack cfg alloc tcbAddr tcb stack_size ttype).tcb stack_size ttype hp hsz]
  exact ⟨rfl, rfl, rfl, rfl⟩

/-- Witness for the amended C3: OABI, 4-aligned base and size, so the
recorded adjusted size equals the effective size and the second call is a
no-op. -/
theorem recreate_noop_when_adj_size_matches_witness :
    (up_create_stack cfgOabi (allocConst 4096) 0
      (up_create_stack cfgOabi (allocConst 4096) 0 tcbFresh 1024 0).tcb 1024 0).released
        = false ∧
    (up_create_stack cfgOabi (allocConst 4096) 0
      (up_create_stack cfgOabi (allocConst 4096) 0 tcbFresh 1024 0).tcb 1024 0).allocCall
        = none ∧
    (up_create_stack cfgOabi (allocConst 4096) 0
      (up_create_stack cfgOabi (allocConst 4096) 0 tcbFresh 1024 0).tcb 1024 0).tcb.stack_alloc_ptr
        = (up_create_stack cfgOabi (allocConst 4096) 0 tcbFresh 1024 0).tcb.stack_alloc_ptr ∧
    (up_create_stack cfgOabi (allocConst 4096) 0
      (up_create_stack cfgOabi (allocConst 4096) 0 tcbFresh 1024 0).tcb 1024 0).ret = OK :=
  recreate_noop_when_adj_size_matches cfgOabi (allocConst 4096) 0 tcbFresh 1024 0
    (by decide) (by decide)

/-- Claim C9: on a TCB whose attached stack's recorded size equals the
effective size, the call keeps the block (no release, no allocation),
still recomputes and overwrites `adj_stack_ptr` and `adj_stack_size` from
the existing base, reruns the TLS-header and coloration writes, signals
the LED event, and returns `OK`. -/
theorem matching_stack_kept_and_reinstrumented (cfg : Config) (alloc : Alloc) (tcbAddr : Nat)
    (tcb : Tcb) (stack_size ttype : Nat)
    (hp : tcb.stack_alloc_ptr ≠ 0)
    (hsz : tcb.adj_stack_size = effectiveSize cfg stack_size) :
    (up_create_stack cfg alloc tcbAddr tcb stack_size ttype).released = false ∧
    (up_create_stack cfg alloc tcbAddr tcb stack_size ttype).allocCall = none ∧
    (up_create_stack cfg alloc tcbAddr tcb stack_size ttype).tcb.stack_alloc_ptr
        = tcb.stack_alloc_ptr ∧
    (up_create_stack cfg alloc tcbAddr tcb stack_size ttype).tcb.adj_stack_ptr
        = topOfStack cfg tcb.stack_alloc_ptr (effectiveSize cfg stack_size) ∧
    (up_create_stack cfg alloc tcbAddr tcb stack_size ttype).tcb.adj_stack_size
        = sizeOfStack cfg tcb.stack_alloc_ptr (effectiveSize cfg stack_size) ∧
    (up_create_stack cfg alloc tcbAddr tcb stack_size ttype).writes
        = instrWrites cfg tcbAddr tcb.stack_alloc_ptr
            (sizeOfStack cfg tcb.stack_alloc_ptr (effectiveSize cfg stack_size)) ∧
    (up_create_stack cfg alloc tcbAddr tcb stack_size ttype).led = true ∧
    (up_create_stack cfg alloc tcbAddr tcb stack_size ttype).ret = OK := by
  rw [keepBlock cfg alloc tcbAddr tcb stack_size ttype hp hsz]
  exact ⟨rfl, rfl, rfl, rfl, rfl, rfl, rfl, rfl⟩

/-- Witness for C9: a matching 1024-byte stack at base 4096 under OABI is
kept and re-instrumented. -/
theorem matching_stack_kept_and_reinstrumented_witness :
    (up_create_stack cfgOabi allocNull 0
      { stack_alloc_ptr := 4096, adj_stack_size := 1024, adj_stack_ptr := 5116 } 1024 0).released
        = false ∧
    (up_create_stack cfgOabi allocNull 0
      { stack_alloc_ptr := 4096, adj_stack_size := 1024, adj_stack_ptr := 5116 } 1024 0).allocCall
        = none ∧
    (up_create_stack cfgOabi allocNull 0
      { stack_alloc_ptr := 4096, adj_stack_size := 1024, adj_stack_ptr := 5116 }
      1024 0).tcb.stack_alloc_ptr
        = ({ stack_alloc_ptr := 4096, adj_stack_size := 1024, adj_stack_ptr := 5116 }
            : Tcb).stack_alloc_ptr ∧
    (up_create_stack cfgOabi allocNull 0
      { stack_alloc_ptr := 4096, adj_stack_size := 1024, adj_stack_ptr := 5116 }
      1024 0).tcb.adj_stack_ptr
        = topOfStack cfgOabi 4096 (effectiveSize cfgOabi 1024) ∧
    (up_create_stack cfgOabi allocNull 0
      { stack_alloc_ptr := 4096, adj_stack_size := 1024, adj_stack_ptr := 5116 }
      1024 0).tcb.adj_stack_size
        = sizeOfStack cfgOabi 4096 (effectiveSize cfgOabi 1024) ∧
    (up_create_stack cfgOabi allocNull 0
      { stack_alloc_ptr := 4096, adj_stack_size := 1024, adj_stack_ptr := 5116 } 1024 0).writes
        = instrWrites cfgOabi 0 4096 (sizeOfStack cfgOabi 4096 (effectiveSize cfgOabi 1024)) ∧
    (up_create_stack cfgOabi allocNull 0
      { stack_alloc_ptr := 4096, adj_stack_size := 1024, adj_stack_ptr := 5116 } 1024 0).led
        = true ∧
    (up_create_stack cfgOabi allocNull 0
      { stack_alloc_ptr := 4096, adj_stack_size := 1024, adj_stack_ptr := 5116 } 1024 0).ret
        = OK :=
  matching_stack_kept_and_reinstrumented cfgOabi allocNull 0
    { stack_alloc_ptr := 4096, adj_stack_size := 1024, adj_stack_ptr := 5116 } 1024 0
    (by decide) (by decide)

/-- Claim C4 (code bug): quantified over every base and byte count, the
bound fails.  At `stackbase = 1`, `nbytes = 0` the rounded-down end (0)
lies below the base, so the `size_t` subtraction
`stkend - stackbase` in line 311 underflows: the loop writes
`2^30 - 1` words starting at address 4, every one of them outside
`[base, base + nbytes) = [1, 1)` — contradicting both the claim and the
code's own comment ("Take extra care that we do not write outsize the
stack boundaries").  For inputs where the rounded-down end does not fall
below the base the code matches the claim. -/
theorem stack_color_underflow_out_of_bounds :
    up_stack_color 1 0 = { start := 4, nwords := 1073741823 } ∧
    (up_stack_color 1 0).nwords ≠ 0 ∧
    ¬ ((up_stack_color 1 0).start < 1 + 0) := by decide

/-- Counterexample to C5: with TLS enabled (header 16 bytes) and requested
size 0, the effective size is 16; from base 32 the aligned top is 40,
strictly below `stack_alloc_ptr + TLS_HEADER_SIZE = 48` — the claimed
lower bound fails for this non-negative requested size. -/
theorem adj_ptr_below_tls_header_for_tiny_request :
    (up_create_stack cfgTls (allocConst 32) 0 tcbFresh 0 0).ret = OK ∧
    (up_create_stack cfgTls (allocConst 32) 0 tcbFresh 0 0).tcb.stack_alloc_ptr = 32 ∧
    (up_create_stack cfgTls (allocConst 32) 0 tcbFresh 0 0).tcb.adj_stack_ptr = 40 ∧
    ¬ (32 + cfgTls.tlsHeaderSize
        ≤ (up_create_stack cfgTls (allocConst 32) 0 tcbFresh 0 0).tcb.adj_stack_ptr) := by
  decide

/-- Claim C5 (amended): on every successful call whose effective size is
at least `(TLS ? TLS_HEADER_SIZE : 0) + STACK_ALIGNMENT + 3` (and whose
block fits the 32-bit address space), the recorded `adj_stack_ptr` is
strictly below `stack_alloc_ptr + effective_size` and at least
`stack_alloc_ptr + TLS_HEADER_SIZE` with TLS (`stack_alloc_ptr` without);
the size floor is what the counterexample forces. -/
theorem adj_ptr_bounds_on_success (cfg : Config) (alloc : Alloc) (tcbAddr : Nat)
    (tcb : Tcb) (stack_size ttype B : Nat)
    (hret : (up_create_stack cfg alloc tcbAddr tcb stack_size ttype).ret = OK)
    (hB : (up_create_stack cfg alloc tcbAddr tcb stack_size ttype).tcb.stack_alloc_ptr = B)
    (halign : cfg.stackAlignment = 4 ∨ cfg.stackAlignment = 8)
    (hS : (if cfg.tls then cfg.tlsHeaderSize else 0) + cfg.stackAlignment + 3
        ≤ effectiveSize cfg stack_size)
    (hov : B + effectiveSize cfg stack_size ≤ U32) :
    (up_create_stack cfg alloc tcbAddr tcb stack_size ttype).tcb.adj_stack_ptr
        < B + effectiveSize cfg stack_size ∧
    B + (if cfg.tls then cfg.tlsHeaderSize else 0)
        ≤ (up_create_stack cfg alloc tcbAddr tcb stack_size ttype).tcb.adj_stack_ptr := by
  by_cases h :
      (tcbAfterAlloc cfg alloc tcb (effectiveSize cfg stack_size) ttype).stack_alloc_ptr = 0
  · rw [createErr_eq cfg alloc tcbAddr tcb stack_size ttype h] at hret
    exact absurd (show ERROR = OK from hret) (by decide)
  · rw [createOk_eq cfg alloc tcbAddr tcb stack_size ttype h] at hB ⊢
    dsimp only at hB ⊢
    rw [withGeometry_ptr] at hB
    rw [withGeometry_adj_ptr, hB]
    have h4 : 4 ≤ effectiveSize cfg stack_size := by omega
    have htop : topOfStack cfg B (effectiveSize cfg stack_size)
        = alignDown (B + effectiveSize cfg stack_size - 4) cfg.stackAlignment := by
      unfold topOfStack
      rw [u32_top_eq B (effectiveSize cfg stack_size) h4 hov]
    rw [htop]
    have hmod : (B + effectiveSize cfg stack_size - 4) % cfg.stackAlignment
        < cfg.stackAlignment :=
      Nat.mod_lt _ (by omega)
    unfold alignDown
    omega

/-- Witness for the amended C5: TLS, header 16, alignment 8, requested 32
(effective 48 ≥ 16 + 8 + 3), base 32: pointer 72 lies in `[48, 80)`. -/
theorem adj_ptr_bounds_on_success_witness :
    (up_create_stack cfgTls (allocConst 32) 0 tcbFresh 32 0).tcb.adj_stack_ptr
        < 32 + effectiveSize cfgTls 32 ∧
    32 + (if cfgTls.tls then cfgTls.tlsHeaderSize else 0)
        ≤ (up_create_stack cfgTls (allocConst 32) 0 tcbFresh 32 0).tcb.adj_stack_ptr :=
  adj_ptr_bounds_on_success cfgTls (allocConst 32) 0 tcbFresh 32 0 32
    (by decide) (by decide) (Or.inr rfl) (by decide) (by decide)

theorem create_allocCall (cfg : Config) (alloc : Alloc) (tcbAddr : Nat) (tcb : Tcb)
    (stack_size ttype : Nat) :
    (up_create_stack cfg alloc tcbAddr tcb stack_size ttype).allocCall
      = allocCallOf cfg (reconcileTcb tcb (effectiveSize cfg stack_size) ttype)
          (effectiveSize cfg stack_size) ttype := by
  by_cases h :
      (tcbAfterAlloc cfg alloc tcb (effectiveSize cfg stack_size) ttype).stack_alloc_ptr = 0
  · rw [createErr_eq cfg alloc tcbAddr tcb stack_size ttype h]
  · rw [createOk_eq cfg alloc tcbAddr tcb stack_size ttype h]

theorem allocArgs_heap_kernel (cfg : Config) (ttype s : Nat)
    (hk : cfg.haveKernelHeap = true) (hkk : ttype = TCB_FLAG_TTYPE_KERNEL) :
    (allocArgs cfg ttype s).heap = Heap.kernel := by
  unfold allocArgs
  by_cases htls : cfg.tls = true <;> simp [htls, hk, hkk]

theorem allocArgs_heap_user (cfg : Config) (ttype s : Nat)
    (hne : ¬(cfg.haveKernelHeap = true ∧ ttype = TCB_FLAG_TTYPE_KERNEL)) :
    (allocArgs cfg ttype s).heap = Heap.user := by
  unfold allocArgs
  by_cases htls : cfg.tls = true <;> simp [htls, hne]

theorem allocArgs_alignment (cfg : Config) (ttype s : Nat) :
    (allocArgs cfg ttype s).alignment
      = (if cfg.tls then some cfg.tlsStackAlign else none) := by
  unfold allocArgs
  by_cases htls : cfg.tls = true <;>
    by_cases hc : cfg.haveKernelHeap = true ∧ ttype = TCB_FLAG_TTYPE_KERNEL <;>
    simp [htls, hc]

theorem allocArgs_size (cfg : Config) (ttype s : Nat) : (allocArgs cfg ttype s).size = s := by
  unfold allocArgs
  by_cases htls : cfg.tls = true <;>
    by_cases hc : cfg.haveKernelHeap = true ∧ ttype = TCB_FLAG_TTYPE_KERNEL <;>
    simp [htls, hc]

/-- Claim C6: whenever the call performs an allocation, the heap is
selected by thread kind — with the kernel heap compiled in, `KERNEL`
threads allocate from the kernel heap and `TASK`/`PTHREAD` threads from
the user heap — and the aligned variant with `TLS_STACK_ALIGN` is used
exactly when TLS is enabled (the plain variant otherwise); the requested
byte count is the effective size. -/
theorem heap_selection_on_alloc (cfg : Config) (alloc : Alloc) (tcbAddr : Nat)
    (tcb : Tcb) (stack_size ttype : Nat) (c : AllocCall)
    (hc : (up_create_stack cfg alloc tcbAddr tcb stack_size ttype).allocCall = some c) :
    (cfg.haveKernelHeap = true →
      (ttype = TCB_FLAG_TTYPE_KERNEL → c.heap = Heap.kernel) ∧
      ((ttype = TCB_FLAG_TTYPE_TASK ∨ ttype = TCB_FLAG_TTYPE_PTHREAD) →
        c.heap = Heap.user)) ∧
    c.alignment = (if cfg.tls then some cfg.tlsStackAlign else none) ∧
    c.size = effectiveSize cfg stack_size := by
  rw [create_allocCall] at hc
  unfold allocCallOf at hc
  by_cases h0 :
      (reconcileTcb tcb (effectiveSize cfg stack_size) ttype).stack_alloc_ptr = 0
  · rw [if_pos h0] at hc
    have hceq : allocArgs cfg ttype (effectiveSize cfg stack_size) = c := Option.some.inj hc
    subst hceq
    refine ⟨fun hk => ⟨fun hkk => allocArgs_heap_kernel cfg ttype _ hk hkk, fun hT => ?_⟩,
      allocArgs_alignment cfg ttype _, allocArgs_size cfg ttype _⟩
    refine allocArgs_heap_user cfg ttype _ (fun hcon => ?_)
    rcases hT with hT | hT <;> rw [hT] at hcon <;>
      exact absurd hcon.2 (by decide)
  · rw [if_neg h0] at hc
    exact absurd hc (by simp)

/-- Witness for C6: protected build with kernel heap and TLS, a `KERNEL`
thread: the kernel heap's aligned allocator is invoked with
`TLS_STACK_ALIGN = 2048` and the effective size 1040. -/
theorem heap_selection_on_alloc_witness :
    (up_create_stack cfgFull (allocConst 4096) 0 tcbFresh 1024
        TCB_FLAG_TTYPE_KERNEL).allocCall
      = some { heap := Heap.kernel, alignment := some 2048, size := 1040 } ∧
    ({ heap := Heap.kernel, alignment := some 2048, size := 1040 } : AllocCall).heap
      = Heap.kernel :=
  ⟨by decide,
    ((heap_selection_on_alloc cfgFull (allocConst 4096) 0 tcbFresh 1024
      TCB_FLAG_TTYPE_KERNEL
      { heap := Heap.kernel, alignment := some 2048, size := 1040 } (by decide)).1 rfl).1 rfl⟩

/-- Counterexample to C7: `stack_size` is a 32-bit `size_t`, so the
addition of `TLS_HEADER_SIZE` wraps: with header 16 and maximum 4096,
requested size `2^32 - 8` yields effective size 8 — the claim demands the
clamp value 4096 because `r + TLS_HEADER_SIZE` exceeds `TLS_MAXSTACK`. -/
theorem effective_size_wraps_at_size_t_max :
    effectiveSize cfgTls 4294967288 = 8 ∧
    cfgTls.tlsMaxstack < 4294967288 + cfgTls.tlsHeaderSize ∧
    effectiveSize cfgTls 4294967288 ≠ cfgTls.tlsMaxstack := by decide

/-- Claim C7 (amended): with TLS enabled, for every requested size `r`
with `r + TLS_HEADER_SIZE < 2^32` (no `size_t` wrap), the effective size
is `r + TLS_HEADER_SIZE`, except that it is exactly `TLS_MAXSTACK`
whenever `r + TLS_HEADER_SIZE` exceeds `TLS_MAXSTACK` — a silent clamp,
not an error return. -/
theorem effective_size_clamp (cfg : Config) (stack_size : Nat)
    (htls : cfg.tls = true)
    (hov : stack_size + cfg.tlsHeaderSize < U32) :
    (cfg.tlsMaxstack < stack_size + cfg.tlsHeaderSize →
        effectiveSize cfg stack_size = cfg.tlsMaxstack) ∧
    (stack_size + cfg.tlsHeaderSize ≤ cfg.tlsMaxstack →
        effectiveSize cfg stack_size = stack_size + cfg.tlsHeaderSize) := by
  unfold effectiveSize
  rw [if_pos htls, u32add_exact stack_size cfg.tlsHeaderSize hov]
  refine ⟨fun h => ?_, fun h => ?_⟩
  · rw [if_pos (by omega)]
  · by_cases he : cfg.tlsMaxstack ≤ stack_size + cfg.tlsHeaderSize
    · rw [if_pos he]
      omega
    · rw [if_neg he]

/-- Witness for the amended C7: requested 8192 with header 16 exceeds the
maximum 4096, so the effective size is clamped to 4096. -/
theorem effective_size_clamp_witness :
    effectiveSize cfgTls 8192 = cfgTls.tlsMaxstack :=
  (effective_size_clamp cfgTls 8192 rfl (by decide)).1 (by decide)

/-! ### Memory lemmas for the TLS header -/

theorem store32mem_before (m : Mem) (addr val a : Nat) (h : a < addr) :
    store32mem m addr val a = m a := by
  unfold store32mem
  rw [if_neg (by omega), if_neg (by omega), if_neg (by omega), if_neg (by omega)]

/-- When the whole coloration run stays inside the 32-bit address space
(`start + 4 * n ≤ 2^32`), no pointer wrap occurs and an address below the
start is never written. -/
theorem colorFillMem_below (n : Nat) :
    ∀ (start : Nat) (m : Mem) (a : Nat), a < start → start + 4 * n ≤ U32 →
      colorFillMem start n m a = m a := by
  induction n with
  | zero =>
      intro start m a _ _
      rfl
  | succ k ih =>
      intro start m a ha hb
      show colorFillMem (u32add start 4) k (store32mem m start STACK_COLOR) a = m a
      by_cases hlt : start + 4 < U32
      · rw [u32add_exact start 4 hlt,
          ih (start + 4) (store32mem m start STACK_COLOR) a (by omega) (by omega)]
        exact store32mem_before m start STACK_COLOR a ha
      · have hk : k = 0 := by
          unfold U32 at *
          omega
        subst hk
        show store32mem m start STACK_COLOR a = m a
        exact store32mem_before m start STACK_COLOR a ha

/-- Splitting a coloration run: after `p` iterations the pointer sits at
`(start + 4 * p) % 2^32` and the remaining `q` iterations run from there
over the memory produced by the first `p`. -/
theorem colorFillMem_add (p q : Nat) :
    ∀ (start : Nat) (m : Mem), start < U32 →
      colorFillMem start (p + q) m
        = colorFillMem ((start + 4 * p) % U32) q (colorFillMem start p m) := by
  induction p with
  | zero =>
      intro start m hs
      have h1 : (start + 4 * 0) % U32 = start := by
        rw [Nat.mul_zero, Nat.add_zero, Nat.mod_eq_of_lt hs]
      rw [Nat.zero_add, h1]
      rfl
  | succ k ih =>
      intro start m hs
      have hq : k + 1 + q = (k + q) + 1 := by omega
      rw [hq]
      show colorFillMem (u32add start 4) (k + q) (store32mem m start STACK_COLOR)
          = colorFillMem ((start + 4 * (k + 1)) % U32) q (colorFillMem start (k + 1) m)
      rw [ih (u32add start 4) (store32mem m start STACK_COLOR)
        (by unfold u32add U32 at *; omega)]
      have haddr : (u32add start 4 + 4 * k) % U32 = (start + 4 * (k + 1)) % U32 := by
        unfold u32add
        rw [Nat.mod_add_mod]
        congr 1
        omega
      rw [haddr]
      rfl

theorem store32mem_at0 (m : Mem) (addr val : Nat) :
    store32mem m addr val addr = val % 256 := by
  unfold store32mem
  rw [if_pos rfl]

theorem store32mem_at1 (m : Mem) (addr val : Nat) :
    store32mem m addr val (addr + 1) = val / 256 % 256 := by
  unfold store32mem
  rw [if_neg (by omega), if_pos rfl]

theorem store32mem_at2 (m : Mem) (addr val : Nat) :
    store32mem m addr val (addr + 2) = val / 65536 % 256 := by
  unfold store32mem
  rw [if_neg (by omega), if_neg (by omega), if_pos rfl]

theorem store32mem_at3 (m : Mem) (addr val : Nat) :
    store32mem m addr val (addr + 3) = val / 16777216 % 256 := by
  unfold store32mem
  rw [if_neg (by omega), if_neg (by omega), if_neg (by omega), if_pos rfl]

theorem store32mem_past (m : Mem) (addr val a : Nat) (h : addr + 3 < a) :
    store32mem m addr val a = m a := by
  unfold store32mem
  rw [if_neg (by omega), if_neg (by omega), if_neg (by omega), if_neg (by omega)]

theorem writeBytes_in (m : Mem) (base len val a : Nat) (h1 : base ≤ a) (h2 : a < base + len) :
    writeBytes m base len val a = val := by
  unfold writeBytes
  rw [if_pos ⟨h1, h2⟩]

/-- Below `base + TLS_HEADER_SIZE`, the instrumentation writes of a
TLS-enabled build leave exactly the header `memset` followed by the
`tl_tcb` store — provided the adjusted size is at least the header size
(so the coloration byte count does not underflow), the header's end is
4-aligned, and the colored region sits inside the 32-bit address space,
so that the coloration runs from `base + TLS_HEADER_SIZE` upward without
the pointer wrapping back over the header. -/
theorem instrWrites_header (cfg : Config) (tcbAddr base adjSize : Nat) (m : Mem) (a : Nat)
    (htls : cfg.tls = true) (ha : a < base + cfg.tlsHeaderSize)
    (h4 : (base + cfg.tlsHeaderSize) % 4 = 0)
    (hsz : cfg.tlsHeaderSize ≤ adjSize)
    (hov : base + adjSize + 3 < U32) :
    applyOps m (instrWrites cfg tcbAddr base adjSize) a
      = store32mem (writeBytes m base cfg.tlsHeaderSize 0) base tcbAddr a := by
  unfold instrWrites
  rw [if_pos htls]
  by_cases hcol : cfg.coloration = true
  · rw [if_pos hcol]
    simp only [List.cons_append, List.nil_append, applyOps, applyOp, colorOp, up_stack_color]
    have h1 : u32add base cfg.tlsHeaderSize = base + cfg.tlsHeaderSize :=
      u32add_exact _ _ (by omega)
    have h2 : u32add (base + cfg.tlsHeaderSize) 3 = base + cfg.tlsHeaderSize + 3 :=
      u32add_exact _ _ (by omega)
    have h3 : u32sub adjSize cfg.tlsHeaderSize = adjSize - cfg.tlsHeaderSize :=
      u32sub_exact _ _ hsz (by omega)
    rw [h1, h2, h3]
    have h5 : u32add (base + cfg.tlsHeaderSize) (adjSize - cfg.tlsHeaderSize)
        = base + adjSize := by
      rw [u32add_exact _ _ (by omega)]
      omega
    rw [h5]
    have hstart : alignDown (base + cfg.tlsHeaderSize + 3) 4 = base + cfg.tlsHeaderSize := by
      unfold alignDown
      omega
    rw [hstart]
    have hendle : alignDown (base + adjSize) 4 ≤ base + adjSize := alignDown_le _ _
    have hend4 : alignDown (base + adjSize) 4 % 4 = 0 := by
      unfold alignDown
      omega
    have hendge : base + cfg.tlsHeaderSize ≤ alignDown (base + adjSize) 4 := by
      unfold alignDown
      omega
    have hsub : u32sub (alignDown (base + adjSize) 4) (base + cfg.tlsHeaderSize)
        = alignDown (base + adjSize) 4 - (base + cfg.tlsHeaderSize) :=
      u32sub_exact _ _ hendge (by omega)
    rw [hsub]
    apply colorFillMem_below
    · exact ha
    · omega
  · rw [if_neg hcol]
    simp only [List.cons_append, List.nil_append, List.append_nil, applyOps, applyOp]

/-- Counterexample to C8: full build (TLS + coloration, header 16),
requested size 0, base 4096.  The call succeeds with
`adj_stack_size = 12 < 16`, so line 273's `size_t` subtraction
`adj_stack_size - sizeof(struct tls_info_s)` underflows to `2^32 - 4`,
the coloration job becomes `2^30 - 1` words from 4112, and the machine's
wrapping `uint32_t` pointer sweeps back over the header: byte 4100 —
inside the header, past the `tl_tcb` field, claimed to be zero — ends as
`0xef = 239`, the low byte of `STACK_COLOR`. -/
theorem tls_header_overwritten_by_wrapped_coloration :
    (up_create_stack cfgFull (allocConst 4096) 305419896 tcbFresh 0 0).ret = OK ∧
    (up_create_stack cfgFull (allocConst 4096) 305419896 tcbFresh 0 0).tcb.stack_alloc_ptr
        = 4096 ∧
    (up_create_stack cfgFull (allocConst 4096) 305419896 tcbFresh 0 0).tcb.adj_stack_size
        = 12 ∧
    applyOps (fun _ => 0)
        (up_create_stack cfgFull (allocConst 4096) 305419896 tcbFresh 0 0).writes 4100
      = 239 ∧
    (239 : Nat) ≠ 0 := by
  have hw : (up_create_stack cfgFull (allocConst 4096) 305419896 tcbFresh 0 0).writes
      = [MemOp.setBytes 4096 16 0, MemOp.store32 4096 305419896,
          MemOp.colorFill 4112 1073741823] := by decide
  refine ⟨by decide, by decide, by decide, ?_, by decide⟩
  rw [hw]
  show colorFillMem 4112 1073741823
      (store32mem (writeBytes (fun _ => 0) 4096 16 0) 4096 305419896) 4100 = 239
  have hsplit : (1073741823 : Nat) = 1073741821 + 2 := by norm_num
  rw [hsplit, colorFillMem_add 1073741821 2 4112
      (store32mem (writeBytes (fun _ => 0) 4096 16 0) 4096 305419896) (by decide)]
  rfl

/-- Claim C8 (amended): with TLS enabled, on every successful return in
which the recorded `adj_stack_size` is at least `TLS_HEADER_SIZE` (so the
coloration byte count does not underflow — false for degenerate tiny
requests, see the counterexample), the header's end `base +
TLS_HEADER_SIZE` is 4-aligned (true of any real allocation, the base
being `TLS_STACK_ALIGN`-aligned), the header holds the 4-byte pointer
field (`4 ≤ TLS_HEADER_SIZE`), and the colored region sits inside the
32-bit address space, the block base holds the little-endian bytes of the
owning TCB's address in its `tl_tcb` field and every other byte of the
`TLS_HEADER_SIZE`-byte header reads zero after all the call's writes —
the header is zeroed, then the back-reference stored, and nothing later
touches it. -/
theorem tls_header_initialized_on_success (cfg : Config) (alloc : Alloc) (tcbAddr : Nat)
    (tcb : Tcb) (stack_size ttype B : Nat) (m : Mem)
    (htls : cfg.tls = true)
    (hret : (up_create_stack cfg alloc tcbAddr tcb stack_size ttype).ret = OK)
    (hB : (up_create_stack cfg alloc tcbAddr tcb stack_size ttype).tcb.stack_alloc_ptr = B)
    (hhdr : 4 ≤ cfg.tlsHeaderSize)
    (h4 : (B + cfg.tlsHeaderSize) % 4 = 0)
    (hszle : cfg.tlsHeaderSize
        ≤ (up_create_stack cfg alloc tcbAddr tcb stack_size ttype).tcb.adj_stack_size)
    (hov : B + (up_create_stack cfg alloc tcbAddr tcb stack_size ttype).tcb.adj_stack_size + 3
        < U32) :
    (applyOps m (up_create_stack cfg alloc tcbAddr tcb stack_size ttype).writes B
        = tcbAddr % 256 ∧
      applyOps m (up_create_stack cfg alloc tcbAddr tcb stack_size ttype).writes (B + 1)
        = tcbAddr / 256 % 256 ∧
      applyOps m (up_create_stack cfg alloc tcbAddr tcb stack_size ttype).writes (B + 2)
        = tcbAddr / 65536 % 256 ∧
      applyOps m (up_create_stack cfg alloc tcbAddr tcb stack_size ttype).writes (B + 3)
        = tcbAddr / 16777216 % 256) ∧
    (∀ j, 4 ≤ j → j < cfg.tlsHeaderSize →
      applyOps m (up_create_stack cfg alloc tcbAddr tcb stack_size ttype).writes (B + j)
        = 0) := by
  by_cases h :
      (tcbAfterAlloc cfg alloc tcb (effectiveSize cfg stack_size) ttype).stack_alloc_ptr = 0
  · rw [createErr_eq cfg alloc tcbAddr tcb stack_size ttype h] at hret
    exact absurd (show ERROR = OK from hret) (by decide)
  · rw [createOk_eq cfg alloc tcbAddr tcb stack_size ttype h] at hB hszle hov ⊢
    dsimp only at hB hszle hov ⊢
    rw [withGeometry_ptr] at hB
    rw [withGeometry_adj_size] at hszle hov
    rw [hB] at hszle hov ⊢
    refine ⟨⟨?_, ?_, ?_, ?_⟩, ?_⟩
    · rw [instrWrites_header cfg tcbAddr B _ m B htls (by omega) h4 hszle hov,
        store32mem_at0]
    · rw [instrWrites_header cfg tcbAddr B _ m (B + 1) htls (by omega) h4 hszle hov,
        store32mem_at1]
    · rw [instrWrites_header cfg tcbAddr B _ m (B + 2) htls (by omega) h4 hszle hov,
        store32mem_at2]
    · rw [instrWrites_header cfg tcbAddr B _ m (B + 3) htls (by omega) h4 hszle hov,
        store32mem_at3]
    · intro j h4j hjlt
      rw [instrWrites_header cfg tcbAddr B _ m (B + j) htls (by omega) h4 hszle hov,
        store32mem_past _ _ _ _ (by omega), writeBytes_in _ _ _ _ _ (by omega) (by omega)]

/-- Witness for the amended C8: full build, requested 1024 (adjusted size
1036 ≥ header 16), base 4096, TCB at `0x12345678`, memory initially all
`0xAB`: after the call's writes, byte 4096 holds `0x78` and byte 4100
(inside the header, past the pointer) holds 0. -/
theorem tls_header_initialized_on_success_witness :
    applyOps (fun _ => 171)
      (up_create_stack cfgFull (allocConst 4096) 305419896 tcbFresh 1024 0).writes 4096
      = 305419896 % 256 ∧
    applyOps (fun _ => 171)
      (up_create_stack cfgFull (allocConst 4096) 305419896 tcbFresh 1024 0).writes 4100
      = 0 := by
  have hthm := tls_header_initialized_on_success cfgFull (allocConst 4096) 305419896
    tcbFresh 1024 0 4096 (fun _ => 171) rfl (by decide) (by decide) (by decide) (by decide)
    (by decide) (by decide)
  exact ⟨hthm.1.1, hthm.2 4 (by omega) (by decide)⟩
